import Mathlib

/-!
Verification development for the Skyscale FaaS control plane.

Shallow embedding of the Go control plane:
- the persisted data model (`control-plane/state/state.go`),
- the result reconciler (`handleResultHandler` in the api package),
- the scheduler (`control-plane/scheduler/scheduler.go`),
- the VM pool manager (vm package: `NewVMManager`, `manageWarmPool`,
  `GetVM`, `ReturnVM`, `terminateVM`, `createVM`),
- the function registry (`control-plane/registry/registry.go`).

Times are modelled as natural numbers (milliseconds); Go `time.Time`
fields whose zero value means "not yet set" become `Option Nat`.
Go maps become functions; bounded channels become lists whose length
is checked against the channel capacity (a non-blocking `select` send
succeeds exactly when the buffer is below capacity).  Fallible I/O
(database saves, file writes) is modelled by explicit boolean outcome
parameters.  JSON decoding of stored output blobs is abstracted: the
raw blob string is carried through unchanged.
-/

namespace Skyscale

/-! ## Data model (control-plane/state/state.go) -/

/-- `state.Execution` (state.go lines 44-54).  `EndTime` is a Go
`time.Time` whose zero value means unset, modelled as `Option Nat`. -/
structure Execution where
  id : String
  functionID : String
  status : String
  startTime : Nat
  endTime : Option Nat
  duration : Int
  vmID : String
  logs : String
  error : String
deriving DecidableEq

/-- `state.Function` (state.go lines 30-41). -/
structure Function where
  id : String
  name : String
  runtime : String
  memory : Int
  timeout : Int
  createdAt : Nat
  updatedAt : Nat
  status : String
  version : String
  code : String
deriving DecidableEq

/-- The wire-format result report decoded by `handleResultHandler`
(api `ExecutionResult`, part_002 lines 60-68). -/
structure ResultReport where
  requestID : String
  functionID : String
  statusCode : Int
  output : String
  errorMessage : String
  duration : Int
deriving DecidableEq

/-- The execution table of the persistence store, keyed by execution id
(`StateManager.GetExecution` / `SaveExecution` over the sqlite table). -/
abbrev ExecStore : Type := String → Option Execution

/-- `db.Save` on the execution table: upsert by primary key. -/
def saveExec (store : ExecStore) (id : String) (e : Execution) : ExecStore :=
  fun x => if x = id then some e else store x

/-! ## Result reconciler (api package, part_002) -/

/-- The field updates `handleResultHandler` applies to the fetched
execution (part_002 lines 425-436): status is unconditionally set to
"completed", end time to now, duration to the report's duration; then
on status_code 200 the output is stored in the logs field, otherwise
the status becomes "error" and the error message is stored. -/
def applyResultReport (e : Execution) (r : ResultReport) (now : Nat) : Execution :=
  let e1 : Execution :=
    { e with status := "completed", endTime := some now, duration := r.duration }
  if r.statusCode == 200 then
    { e1 with logs := r.output }
  else
    { e1 with status := "error", error := r.errorMessage }

/-- `handleResultHandler` (part_002 lines 408-448): look up the
execution (404 if absent), apply the report, save (500 on save
failure, leaving the store unchanged), answer 200.  The returned
number is the HTTP status written to the agent. -/
def handleResult (store : ExecStore) (r : ResultReport) (now : Nat)
    (saveOk : Bool) : Nat × ExecStore :=
  match store r.requestID with
  | none => (404, store)
  | some e =>
      if saveOk then (200, saveExec store r.requestID (applyResultReport e r now))
      else (500, store)

/-- A status string is terminal for the execution state machine as the
spec describes it (completed, failed or timeout). -/
def specTerminal (status : String) : Bool :=
  status == "completed" || status == "failed" || status == "timeout"

/-- The terminal-status check of the scheduler's sync poll loop
(scheduler.go line 390): only "completed" and "failed" count. -/
def pollIsTerminal (status : String) : Bool :=
  status == "completed" || status == "failed"

/-- Spec invariant on timing fields: when the end time is set,
start_time ≤ end_time and duration_ms equals end − start within 1 ms.
Stated from the spec's words for comparison with the code. -/
def timingInvariant (e : Execution) : Prop :=
  match e.endTime with
  | none => True
  | some t => e.startTime ≤ t ∧ (e.duration - ((t : Int) - (e.startTime : Int))).natAbs ≤ 1

instance (e : Execution) : Decidable (timingInvariant e) := by
  unfold timingInvariant
  cases e.endTime <;> infer_instance

/-! ## Scheduler (control-plane/scheduler/scheduler.go) -/

/-- `scheduler.ExecutionResult` (scheduler.go lines 65-73).  The Go
`Output` field is a JSON object decoded from the stored logs blob;
decoding is abstracted, the raw blob string is carried instead. -/
structure SchedExecResult where
  requestID : String
  functionID : String
  statusCode : Int
  output : String
  errorMessage : String
  duration : Int
deriving DecidableEq

/-- Abstraction of the request input `map[string]interface{}`; the
scheduler never inspects it. -/
abbrev InputMap : Type := List (String × String)

/-- `scheduler.ExecutionRequest` (scheduler.go lines 46-52). -/
structure ExecutionRequest where
  functionID : String
  functionName : String
  input : InputMap
  sync : Bool
  requestID : String

/-- The scheduler-visible mutable state: the bounded async queue (a Go
channel of capacity `asyncQueueCap`, modelled as a list), the
active-execution map, and the persistence store's execution table. -/
structure SchedulerState where
  asyncQueue : List ExecutionRequest
  activeExecutions : String → Bool
  executions : ExecStore

/-- Capacity of the async work queue (`make(chan *ExecutionRequest, 100)`,
scheduler.go line 82). -/
def asyncQueueCap : Nat := 100

/-- Outcome of `ScheduleExecution`: either a result together with the
state after the call, or a Go error. -/
inductive ScheduleOutcome where
  | ok (r : SchedExecResult) (s : SchedulerState)
  | err (msg : String)

/-- `Scheduler.ScheduleExecution` (scheduler.go lines 98-133): validate
that the function exists, build a request with a fresh UUID, then
either run the sync path (`executeFunction`, passed here as the
parameter `execF`) or try a non-blocking send on the async queue: the
send succeeds exactly when the buffer is below capacity, returning
status 202 with the fresh request id; a full queue falls to the
`default` branch and returns an error without touching any state. -/
def scheduleExecution (functions : String → Option Function) (s : SchedulerState)
    (functionID : String) (input : InputMap) (sync : Bool) (freshID : String)
    (execF : ExecutionRequest → SchedulerState → ScheduleOutcome) : ScheduleOutcome :=
  match functions functionID with
  | none => .err "function not found"
  | some _ =>
      let request : ExecutionRequest :=
        { functionID := functionID, functionName := "", input := input,
          sync := sync, requestID := freshID }
      if sync then execF request s
      else if s.asyncQueue.length < asyncQueueCap then
        .ok { requestID := freshID, functionID := functionID, statusCode := 202,
              output := "", errorMessage := "", duration := 0 }
           { s with asyncQueue := s.asyncQueue ++ [request] }
      else .err "execution queue is full, try again later"

/-- `Scheduler.GetExecutionResult` (scheduler.go lines 175-212): ids in
the active map answer 102 (processing); otherwise the stored row is
returned with status code 200 unconditionally, the stored error string
riding in the error-message field. -/
def getExecutionResult (s : SchedulerState) (requestID : String) :
    Except String SchedExecResult :=
  if s.activeExecutions requestID then
    .ok { requestID := requestID, functionID := "", statusCode := 102,
          output := "", errorMessage := "", duration := 0 }
  else
    match s.executions requestID with
    | none => .error "execution not found"
    | some e =>
        .ok { requestID := requestID, functionID := e.functionID, statusCode := 200,
              output := e.logs, errorMessage := e.error, duration := e.duration }

/-- Bound on the sync poll loop (scheduler.go line 377). -/
def maxRetries : Nat := 30

/-- Interval between polls in milliseconds (scheduler.go line 378). -/
def retryIntervalMs : Nat := 500

/-- The sync poll loop of `executeFunction` (scheduler.go lines
380-422): up to `fuel` further polls, `polls j` being the snapshot
`GetExecution` returns on poll `j` (`none` models a lookup error,
which the loop skips).  The first snapshot whose status passes
`pollIsTerminal` is returned. -/
def firstTerminalPollAux (polls : Nat → Option Execution) :
    Nat → Nat → Option Execution
  | _, 0 => none
  | i, fuel + 1 =>
      match polls i with
      | none => firstTerminalPollAux polls (i + 1) fuel
      | some e =>
          if pollIsTerminal e.status then some e
          else firstTerminalPollAux polls (i + 1) fuel

/-- The full poll loop: `maxRetries` polls starting at index 0. -/
def firstTerminalPoll (polls : Nat → Option Execution) : Option Execution :=
  firstTerminalPollAux polls 0 maxRetries

/-- What the sync tail of `executeFunction` produces: the result handed
to the caller, the execution row as last written or observed, whether
the timeout row was saved, and whether `ReturnVM` was called. -/
structure SyncWaitOutcome where
  result : SchedExecResult
  finalExec : Execution
  savedTimeout : Bool
  vmReturned : Bool

/-- Sync tail of `executeFunction` after the dispatch POST succeeded
(scheduler.go lines 374-450).  `ctxStart` is the context start time,
`now` the time at which the loop gives up.  On a terminal snapshot:
build the result (500 if the row says "failed", else 200), return the
VM, do not rewrite the row.  On exhaustion: write the row to status
"timeout" with end time `now` and duration `now − ctxStart`, return
the VM, and answer 504 GatewayTimeout. -/
def syncWait (execution : Execution) (req : ExecutionRequest) (ctxStart now : Nat)
    (polls : Nat → Option Execution) : SyncWaitOutcome :=
  match firstTerminalPoll polls with
  | some e =>
      { result := { requestID := req.requestID, functionID := req.functionID,
                    statusCode := if e.status == "failed" then 500 else 200,
                    output := e.logs, errorMessage := e.error, duration := e.duration },
        finalExec := e, savedTimeout := false, vmReturned := true }
  | none =>
      let msg := "Execution timed out waiting for result"
      let d : Int := (now : Int) - (ctxStart : Int)
      let timedOut : Execution :=
        { execution with status := "timeout", error := msg,
                         endTime := some now, duration := d }
      { result := { requestID := req.requestID, functionID := req.functionID,
                    statusCode := 504, output := "",
                    errorMessage := msg, duration := d },
        finalExec := timedOut, savedTimeout := true, vmReturned := true }

/-! ## VM pool manager (vm package) -/

/-- Warm pool target size (`NewVMManager`: `warmPoolSize: 5`). -/
def warmPoolSize : Nat := 5

/-- Warm pool channel capacity (`make(chan *state.VM, 5)`). -/
def warmPoolCap : Nat := 5

/-- Refill tick interval (`time.NewTicker(10 * time.Second)` in
`manageWarmPool`), in seconds. -/
def warmPoolTickSeconds : Nat := 10

/-- VM-manager state: the warm pool channel buffer (FIFO of VM ids),
the in-memory instance map `m.vms` as a membership function, the ids
of persisted VM rows, and a ghost log of terminated VM ids (used only
to state properties; the code's side effect is stopping the
hypervisor process). -/
structure VMMState where
  warmPool : List String
  vms : String → Bool
  store : String → Bool
  terminated : List String

/-- `terminateVM` (vm package): error "VM not found" when the id is
not in the in-memory map, otherwise stop the machine, remove the VM
directory, delete the persisted row, and remove the map entry.  The
warm pool buffer is not touched.  Second component is the returned Go
error (`none` = nil). -/
def terminateVM (s : VMMState) (id : String) : VMMState × Option String :=
  if s.vms id then
    ({ warmPool := s.warmPool,
       vms := fun x => if x = id then false else s.vms x,
       store := fun x => if x = id then false else s.store x,
       terminated := id :: s.terminated }, none)
  else (s, some "VM not found")

/-- State effect of `createVM`: record the new instance in the
in-memory map and persist the row (directory creation, IP assignment
and the hypervisor boot are abstracted). -/
def createVMState (s : VMMState) (id : String) : VMMState :=
  { s with vms := fun x => if x = id then true else s.vms x,
           store := fun x => if x = id then true else s.store x }

/-- `GetVM`: non-blocking receive from the warm pool; on an empty pool
create a fresh (busy) VM. -/
def getVM (s : VMMState) (freshID : String) : String × VMMState :=
  match s.warmPool with
  | vmID :: rest => (vmID, { s with warmPool := rest })
  | [] => (freshID, createVMState s freshID)

/-- The `select` send used by `manageWarmPool`: the non-blocking send
admits the VM when the buffer is below capacity; a full pool falls to
the `default` branch, which terminates the VM immediately. -/
def offerWarmVM (s : VMMState) (id : String) : VMMState :=
  if s.warmPool.length < warmPoolCap then { s with warmPool := s.warmPool ++ [id] }
  else (terminateVM s id).1

/-- One iteration of `manageWarmPool`: when the pool is below the
target size, create one warm VM and offer it to the pool. -/
def warmPoolTick (s : VMMState) (newID : String) : VMMState :=
  if s.warmPool.length < warmPoolSize then offerWarmVM (createVMState s newID) newID
  else s

/-- `ReturnVM`: look up the persisted row ("record not found" error if
absent); then a non-blocking send back into the pool, terminating the
VM instead when the pool is at capacity. -/
def returnVM (s : VMMState) (id : String) : VMMState × Option String :=
  if s.store id then
    if s.warmPool.length < warmPoolCap then
      ({ s with warmPool := s.warmPool ++ [id] }, none)
    else terminateVM s id
  else (s, some "VM record not found")

/-- The pool manager's interface events, for reachability statements. -/
inductive VMOp where
  | tick (newID : String)
  | lease (freshID : String)
  | ret (id : String)
  | terminate (id : String)

/-- One interface event applied to the manager state. -/
def stepVM (s : VMMState) : VMOp → VMMState
  | .tick id => warmPoolTick s id
  | .lease id => (getVM s id).2
  | .ret id => (returnVM s id).1
  | .terminate id => (terminateVM s id).1

/-- A whole history of interface events. -/
def runVM (s : VMMState) (ops : List VMOp) : VMMState := ops.foldl stepVM s

/-- Manager state right after `NewVMManager`: empty pool, no VMs. -/
def initVMM : VMMState :=
  { warmPool := [], vms := fun _ => false, store := fun _ => false, terminated := [] }

/-! ## Function registry (control-plane/registry/registry.go) -/

/-- `registry.FunctionMetadata` (registry.go lines 32-42). -/
structure FunctionMetadata where
  id : String
  name : String
  runtime : String
  memory : Int
  timeout : Int
  createdAt : Nat
  updatedAt : Nat
  status : String
  version : String
deriving DecidableEq

/-- The metadata view RegisterFunction returns for a stored row. -/
def metadataOf (f : Function) : FunctionMetadata :=
  { id := f.id, name := f.name, runtime := f.runtime, memory := f.memory,
    timeout := f.timeout, createdAt := f.createdAt, updatedAt := f.updatedAt,
    status := f.status, version := f.version }

/-- Contents of a function's storage directory
(`function-storage/<id>`): the three files RegisterFunction writes,
`none` for a file not (yet) written. -/
structure FuncDir where
  handlerPy : Option String
  requirementsTxt : Option String
  skyscaleYaml : Option String
deriving DecidableEq

/-- Registry-visible state: the persisted function rows and the
on-disk storage directories keyed by function id. -/
structure RegistryState where
  functions : List Function
  disk : String → Option FuncDir

/-- Injected outcomes of the fallible filesystem and database calls
inside RegisterFunction. -/
structure RegistryFx where
  mkdirOk : Bool
  writeHandlerOk : Bool
  writeRequirementsOk : Bool
  writeConfigOk : Bool
  saveOk : Bool

/-- Overwrite one directory entry on disk. -/
def diskWrite (disk : String → Option FuncDir) (id : String) (d : FuncDir) :
    String → Option FuncDir :=
  fun x => if x = id then some d else disk x

/-- `FunctionRegistry.RegisterFunction` (registry.go lines 67-130):
reject duplicate names; create the storage directory; write
handler.py, requirements.txt and skyscale.yaml; build the row with
status "ready" and version "1.0.0"; save it.  On save failure the
storage directory is removed (`os.RemoveAll`) before the error is
returned.  Error strings stand in for the underlying Go errors. -/
def registerFunction (s : RegistryState) (name runtime : String)
    (memory timeout : Int) (code requirements config : String)
    (freshID : String) (now : Nat) (fx : RegistryFx) :
    Except String FunctionMetadata × RegistryState :=
  match s.functions.find? (fun f => f.name = name) with
  | some _ => (.error "function with this name already exists", s)
  | none =>
      if !fx.mkdirOk then (.error "mkdir failed", s)
      else
        let s1 : RegistryState :=
          { s with disk := diskWrite s.disk freshID ⟨none, none, none⟩ }
        if !fx.writeHandlerOk then (.error "write handler.py failed", s1)
        else
          let s2 : RegistryState :=
            { s1 with disk := diskWrite s1.disk freshID ⟨some code, none, none⟩ }
          if !fx.writeRequirementsOk then (.error "write requirements.txt failed", s2)
          else
            let s3 : RegistryState :=
              { s2 with disk := diskWrite s2.disk freshID ⟨some code, some requirements, none⟩ }
            if !fx.writeConfigOk then (.error "write skyscale.yaml failed", s3)
            else
              let s4 : RegistryState :=
                { s3 with disk := diskWrite s3.disk freshID ⟨some code, some requirements, some config⟩ }
              let fn : Function :=
                { id := freshID, name := name, runtime := runtime, memory := memory,
                  timeout := timeout, createdAt := now, updatedAt := now,
                  status := "ready", version := "1.0.0", code := code }
              if fx.saveOk then (.ok (metadataOf fn), { s4 with functions := fn :: s4.functions })
              else (.error "failed to save function",
                    { s4 with disk := fun x => if x = freshID then none else s4.disk x })

/-! ## Startup configuration -/

/-- `os.Getenv`: unset variables give the empty string. -/
abbrev Env : Type := String → String

/-- main.go line 126: the HTTP server address is the string literal
":8080"; no environment variable is consulted. -/
def serverAddr : String := ":8080"

/-- `NewVMManager`: the warm pool size is the literal 5; no
environment variable is consulted. -/
def newVMManagerWarmPoolSize : Nat := 5

/-- `vm.VMConfig`. -/
structure VMConfig where
  memory : Nat
  cpu : Nat
  kernel : String
  rootfs : String
deriving DecidableEq

/-- `createVM`: the VM configuration is hardcoded — memory 128, one
CPU, hello-vmlinux.bin kernel, hello-rootfs.ext4 root filesystem. -/
def createVMConfig : VMConfig :=
  { memory := 128, cpu := 1,
    kernel := "/home/bluequbit/Dev/faas/assets/hello-vmlinux.bin",
    rootfs := "/home/bluequbit/Dev/faas/assets/hello-rootfs.ext4" }

/-- `getDefaultKernelPath` (vm package env helpers): reads
FAAS_VM_KERNEL_PATH with a hardcoded fallback.  These helpers exist in
the source but `createVM` does not call them. -/
def getDefaultKernelPath (env : Env) : String :=
  if env "FAAS_VM_KERNEL_PATH" ≠ "" then env "FAAS_VM_KERNEL_PATH"
  else "/home/bluequbit/Dev/faas/assets/vmlinux-5.10.225"

/-- `getDefaultRootFSPath`: same pattern for the root filesystem. -/
def getDefaultRootFSPath (env : Env) : String :=
  if env "FAAS_VM_ROOTFS_PATH" ≠ "" then env "FAAS_VM_ROOTFS_PATH"
  else "/home/bluequbit/Dev/faas/scripts/rootfs.ext4"

/-- `getDefaultMemoryMB`: parse FAAS_VM_MEMORY_MB, require a positive
value, default 128.  `strconv.Atoi` is modelled by `String.toNat?`
(numerals with a sign prefix are abstracted to the default). -/
def getDefaultMemoryMB (env : Env) : Nat :=
  match (env "FAAS_VM_MEMORY_MB").toNat? with
  | some v => if 0 < v then v else 128
  | none => 128

/-- `getDefaultCPUCount`: same pattern, default 1. -/
def getDefaultCPUCount (env : Env) : Nat :=
  match (env "FAAS_VM_CPU_COUNT").toNat? with
  | some v => if 0 < v then v else 1
  | none => 1

/-! ## Concrete states used by the closed theorems -/

/-- An execution already in the terminal state "completed": the agent's
first (successful) report arrived at t = 1500. -/
def exCompleted : Execution :=
  { id := "e1", functionID := "f1", status := "completed", startTime := 1000,
    endTime := some 1500, duration := 500, vmID := "v1",
    logs := "result-blob", error := "" }

/-- A store holding exactly `exCompleted`. -/
def storeCompleted : ExecStore :=
  fun x => if x = "e1" then some exCompleted else none

/-- The duplicate of the report that produced `exCompleted`. -/
def duplicateReport : ResultReport :=
  { requestID := "e1", functionID := "f1", statusCode := 200,
    output := "result-blob", errorMessage := "", duration := 500 }

/-- A conflicting late failure report for the same execution. -/
def lateFailureReport : ResultReport :=
  { requestID := "e1", functionID := "f1", statusCode := 500,
    output := "", errorMessage := "agent crashed", duration := 700 }

/-- A pending execution awaiting its first report. -/
def exPending : Execution :=
  { id := "e2", functionID := "f1", status := "pending", startTime := 1000,
    endTime := none, duration := 0, vmID := "v1", logs := "", error := "" }

/-- A store holding exactly `exPending`. -/
def storePending : ExecStore :=
  fun x => if x = "e2" then some exPending else none

/-- A failure report for the pending execution. -/
def failureReport : ResultReport :=
  { requestID := "e2", functionID := "f1", statusCode := 500,
    output := "", errorMessage := "boom", duration := 20 }

/-- A success report for the pending execution whose agent-measured
duration disagrees wildly with end − start. -/
def successReportLongDuration : ResultReport :=
  { requestID := "e2", functionID := "f1", statusCode := 200,
    output := "ok-blob", errorMessage := "", duration := 999999 }

/-- The row persisted for `exPending` after `successReportLongDuration`
is handled at t = 2000. -/
def exPendingAfterLongReport : Execution :=
  { id := "e2", functionID := "f1", status := "completed", startTime := 1000,
    endTime := some 2000, duration := 999999, vmID := "v1",
    logs := "ok-blob", error := "" }

/-- A sample execution request. -/
def reqAsyncExample : ExecutionRequest :=
  { functionID := "f1", functionName := "", input := [], sync := false,
    requestID := "r1" }

/-- A registered function. -/
def fnGreet : Function :=
  { id := "f1", name := "greet", runtime := "python3.9", memory := 128,
    timeout := 30, createdAt := 0, updatedAt := 0, status := "ready",
    version := "1.0.0", code := "def handler" }

/-- Registry lookup exposing only `fnGreet`. -/
def fnsGreetOnly : String → Option Function :=
  fun x => if x = "f1" then some fnGreet else none

/-- A stand-in for the sync execution path, unused on async calls. -/
def execFUnused : ExecutionRequest → SchedulerState → ScheduleOutcome :=
  fun _ _ => .err "sync path unused"

/-- Scheduler state with an empty queue and empty stores. -/
def sEmpty : SchedulerState :=
  { asyncQueue := [], activeExecutions := fun _ => false, executions := fun _ => none }

/-- Scheduler state whose async queue is at capacity. -/
def sFullQueue : SchedulerState :=
  { asyncQueue := List.replicate 100 reqAsyncExample,
    activeExecutions := fun _ => false, executions := fun _ => none }

/-- A persisted execution that ended in failure. -/
def exFailedRow : Execution :=
  { id := "e9", functionID := "f1", status := "failed", startTime := 1000,
    endTime := some 1200, duration := 200, vmID := "v1", logs := "",
    error := "function raised" }

/-- Scheduler state with one active id ("act") and one persisted
failed row ("e9"). -/
def sLookup : SchedulerState :=
  { asyncQueue := [], activeExecutions := fun x => x == "act",
    executions := fun x => if x = "e9" then some exFailedRow else none }

/-- Manager state holding a single live VM "v1". -/
def sOneVM : VMMState :=
  { warmPool := [], vms := fun x => x == "v1", store := fun x => x == "v1",
    terminated := [] }

/-- Manager state with a full warm pool and one extra live VM "n". -/
def sPoolFull : VMMState :=
  { warmPool := ["a", "b", "c", "d", "e"], vms := fun x => x == "n",
    store := fun x => x == "n", terminated := [] }

/-- An empty registry. -/
def regEmpty : RegistryState := { functions := [], disk := fun _ => none }

/-- An environment assigning the variables the spec names. -/
def envCustom : Env := fun k =>
  if k = "PORT" then "9999"
  else if k = "WARM_POOL_SIZE" then "7"
  else if k = "FAAS_VM_KERNEL_PATH" then "/custom/kernel"
  else ""

/-! ## Theorems  -/

/-- C1: the handler applies every report unconditionally; with the
execution already terminal at end time 1500, redelivering the very
same report at t = 2000 responds 200 but rewrites the row (the end
time moves to 2000), so the persisted state after two deliveries
differs from the state after one, and a conflicting late report even
flips the terminal status from "completed" to "error". -/
theorem result_report_not_idempotent :
    (handleResult storeCompleted duplicateReport 2000 true).1 = 200 ∧
    (handleResult storeCompleted duplicateReport 2000 true).2 "e1" ≠ some exCompleted ∧
    (handleResult storeCompleted duplicateReport 2000 true).2 "e1" =
      some { exCompleted with endTime := some 2000 } ∧
    ((handleResult storeCompleted lateFailureReport 2100 true).2 "e1").map
        Execution.status = some "error" := by
  refine ⟨rfl, ?_, rfl, rfl⟩
  intro h
  simp only [handleResult, storeCompleted, saveExec, applyResultReport,
    duplicateReport, exCompleted] at h
  exact absurd (congrArg Execution.endTime (Option.some.inj h)) (by decide)

/-- C2: on a non-200 report for a stored (non-terminal) execution the
handler sets the status to "error", not "failed"; "error" is not
recognised as terminal by the scheduler's own sync poll loop.  The
end time and error message are set as the claim says. -/
theorem failure_report_sets_error_status :
    ((handleResult storePending failureReport 2000 true).2 "e2").map
        Execution.status = some "error" ∧
    ((handleResult storePending failureReport 2000 true).2 "e2").map
        Execution.status ≠ some "failed" ∧
    ((handleResult storePending failureReport 2000 true).2 "e2").map
        Execution.error = some "boom" ∧
    ((handleResult storePending failureReport 2000 true).2 "e2").bind
        Execution.endTime = some 2000 ∧
    pollIsTerminal "error" = false := by
  exact ⟨rfl, by decide, rfl, rfl, rfl⟩

/-- C3 counterexample: a success report carrying an agent-measured
duration of 999999 ms arrives at t = 2000 for an execution started at
t = 1000.  The handler persists end time 2000 and duration 999999, so
duration ≠ end − start (off by far more than 1 ms): the spec's timing
invariant fails on the persisted row. -/
theorem duration_invariant_fails_on_result_path :
    ((handleResult storePending successReportLongDuration 2000 true).2 "e2" =
      some exPendingAfterLongReport) ∧
    ¬ timingInvariant exPendingAfterLongReport := by
  exact ⟨rfl, by decide⟩

/-- C3 amended: when the report is handled at a time `now` not earlier
than the recorded start, the persisted row satisfies start ≤ end (the
end time is always set to `now`); but the stored duration is the
report's agent-measured duration, with no relation to end − start. -/
theorem result_path_timing (e : Execution) (r : ResultReport) (now : Nat)
    (h : e.startTime ≤ now) :
    (applyResultReport e r now).startTime ≤ now ∧
    (applyResultReport e r now).endTime = some now ∧
    (applyResultReport e r now).duration = r.duration := by
  unfold applyResultReport
  by_cases h200 : r.statusCode == 200 <;> simp [h200, h]

/-- Witness for `result_path_timing` at a concrete input. -/
theorem result_path_timing_witness :
    (applyResultReport exPending successReportLongDuration 2000).startTime ≤ 2000 ∧
    (applyResultReport exPending successReportLongDuration 2000).endTime = some 2000 ∧
    (applyResultReport exPending successReportLongDuration 2000).duration =
      successReportLongDuration.duration :=
  result_path_timing exPending successReportLongDuration 2000 (by decide)

/-- If no snapshot among the `fuel` polls starting at `i` is terminal,
the loop finds nothing. -/
theorem firstTerminalPollAux_eq_none (polls : Nat → Option Execution)
    (fuel : Nat) :
    ∀ i, (∀ j, j < i + fuel → ∀ e, polls j = some e → pollIsTerminal e.status = false) →
      firstTerminalPollAux polls i fuel = none := by
  induction fuel with
  | zero => intro i _; rfl
  | succ n ih =>
      intro i h
      have hnext : ∀ j, j < (i + 1) + n → ∀ e, polls j = some e →
          pollIsTerminal e.status = false := by
        intro j hj e he
        exact h j (by omega) e he
      unfold firstTerminalPollAux
      cases hp : polls i with
      | none => exact ih (i + 1) hnext
      | some e =>
          have hterm : pollIsTerminal e.status = false := h i (by omega) e hp
          simp only [hterm, if_false, Bool.false_eq_true]
          exact ih (i + 1) hnext

/-- C4: the sync rendezvous polls the store with `maxRetries = 30`
attempts at `retryIntervalMs = 500` ms; if no poll observes a terminal
status, the scheduler writes the execution to status "timeout" with
end time `now`, saves it, returns the VM to the pool, and hands the
caller a 504 GatewayTimeout result. -/
theorem sync_poll_timeout (execution : Execution) (req : ExecutionRequest)
    (ctxStart now : Nat) (polls : Nat → Option Execution)
    (h : ∀ i, i < maxRetries → ∀ e, polls i = some e → pollIsTerminal e.status = false) :
    maxRetries = 30 ∧ retryIntervalMs = 500 ∧
    (syncWait execution req ctxStart now polls).result.statusCode = 504 ∧
    (syncWait execution req ctxStart now polls).result.errorMessage =
      "Execution timed out waiting for result" ∧
    (syncWait execution req ctxStart now polls).finalExec.status = "timeout" ∧
    (syncWait execution req ctxStart now polls).finalExec.endTime = some now ∧
    (syncWait execution req ctxStart now polls).savedTimeout = true ∧
    (syncWait execution req ctxStart now polls).vmReturned = true := by
  have hnone : firstTerminalPoll polls = none := by
    unfold firstTerminalPoll
    exact firstTerminalPollAux_eq_none polls maxRetries 0
      (by intro j hj e he; exact h j (by omega) e he)
  refine ⟨rfl, rfl, ?_, ?_, ?_, ?_, ?_, ?_⟩ <;> simp [syncWait, hnone]

/-- Witness for `sync_poll_timeout`: with a store that never shows a
terminal row, the sync path times out as described. -/
theorem sync_poll_timeout_witness :
    maxRetries = 30 ∧ retryIntervalMs = 500 ∧
    (syncWait exPending reqAsyncExample 1000 16000 (fun _ => none)).result.statusCode = 504 ∧
    (syncWait exPending reqAsyncExample 1000 16000 (fun _ => none)).result.errorMessage =
      "Execution timed out waiting for result" ∧
    (syncWait exPending reqAsyncExample 1000 16000 (fun _ => none)).finalExec.status = "timeout" ∧
    (syncWait exPending reqAsyncExample 1000 16000 (fun _ => none)).finalExec.endTime = some 16000 ∧
    (syncWait exPending reqAsyncExample 1000 16000 (fun _ => none)).savedTimeout = true ∧
    (syncWait exPending reqAsyncExample 1000 16000 (fun _ => none)).vmReturned = true :=
  sync_poll_timeout exPending reqAsyncExample 1000 16000 (fun _ => none)
    (by intro i _ e he; cases he)

/-- Every single interface event keeps the warm pool within the
channel capacity. -/
theorem stepVM_pool_le (s : VMMState) (op : VMOp)
    (h : s.warmPool.length ≤ warmPoolCap) :
    (stepVM s op).warmPool.length ≤ warmPoolCap := by
  cases op with
  | tick id =>
      simp only [stepVM, warmPoolTick, offerWarmVM, createVMState, terminateVM]
      split_ifs <;> simp_all [List.length_append, Nat.lt_iff_add_one_le]
  | lease id =>
      simp only [stepVM, getVM]
      cases hp : s.warmPool with
      | nil => simpa [createVMState] using h
      | cons a rest => simp_all; omega
  | ret id =>
      simp only [stepVM, returnVM, terminateVM]
      split_ifs <;> simp_all [List.length_append, Nat.lt_iff_add_one_le]
  | terminate id =>
      simp only [stepVM, terminateVM]
      split_ifs <;> simp_all

/-- The pool stays within capacity along any event history. -/
theorem runVM_pool_le (ops : List VMOp) :
    ∀ s : VMMState, s.warmPool.length ≤ warmPoolCap →
      (runVM s ops).warmPool.length ≤ warmPoolCap := by
  induction ops with
  | nil => intro s h; exact h
  | cons op rest ih => intro s h; exact ih (stepVM s op) (stepVM_pool_le s op h)

/-- C5: the warm pool never exceeds its capacity W = 5 in any state
reachable from startup; the refiller's 10-second tick grows the pool
by at most one VM; and when the pool refuses the freshly created VM
(full buffer), that VM is terminated immediately rather than
admitted. -/
theorem warm_pool_invariant :
    warmPoolSize = 5 ∧ warmPoolCap = 5 ∧ warmPoolTickSeconds = 10 ∧
    (∀ ops : List VMOp, (runVM initVMM ops).warmPool.length ≤ warmPoolCap) ∧
    (∀ s id, (warmPoolTick s id).warmPool.length ≤ s.warmPool.length + 1) ∧
    (∀ s id, s.vms id = true → warmPoolCap ≤ s.warmPool.length →
      (offerWarmVM s id).warmPool = s.warmPool ∧
      id ∈ (offerWarmVM s id).terminated ∧
      (offerWarmVM s id).vms id = false) := by
  refine ⟨rfl, rfl, rfl, ?_, ?_, ?_⟩
  · intro ops
    exact runVM_pool_le ops initVMM (by simp [initVMM])
  · intro s id
    simp only [warmPoolTick, offerWarmVM, createVMState, terminateVM]
    split_ifs <;> simp_all [List.length_append]
  · intro s id hv hfull
    have hnlt : ¬ s.warmPool.length < warmPoolCap := by omega
    simp [offerWarmVM, hnlt, terminateVM, hv]

/-- Witness for `warm_pool_invariant` at concrete inputs: one refill
tick from startup, a tick against a full pool, and an offer refused by
a full pool terminating the VM. -/
theorem warm_pool_invariant_witness :
    (runVM initVMM [VMOp.tick "w1"]).warmPool.length ≤ warmPoolCap ∧
    (warmPoolTick sPoolFull "n").warmPool.length ≤ sPoolFull.warmPool.length + 1 ∧
    ((offerWarmVM sPoolFull "n").warmPool = sPoolFull.warmPool ∧
      "n" ∈ (offerWarmVM sPoolFull "n").terminated ∧
      (offerWarmVM sPoolFull "n").vms "n" = false) :=
  ⟨warm_pool_invariant.2.2.2.1 [VMOp.tick "w1"],
   warm_pool_invariant.2.2.2.2.1 sPoolFull "n",
   warm_pool_invariant.2.2.2.2.2 sPoolFull "n" rfl (by decide)⟩

/-- C6: with an existing function and `sync = false`, a queue below
capacity (100) accepts the work item and the call returns immediately
with status 202 and the fresh execution id, mutating only the queue
(in particular the execution table is untouched); a full queue
returns the queue-full error and changes nothing. -/
theorem async_submission (functions : String → Option Function) (s : SchedulerState)
    (functionID : String) (input : InputMap) (freshID : String)
    (execF : ExecutionRequest → SchedulerState → ScheduleOutcome)
    (f : Function) (hf : functions functionID = some f) :
    asyncQueueCap = 100 ∧
    (s.asyncQueue.length < asyncQueueCap →
      scheduleExecution functions s functionID input false freshID execF =
        .ok { requestID := freshID, functionID := functionID, statusCode := 202,
              output := "", errorMessage := "", duration := 0 }
           { s with asyncQueue :=
              s.asyncQueue ++ [⟨functionID, "", input, false, freshID⟩] }) ∧
    (¬ s.asyncQueue.length < asyncQueueCap →
      scheduleExecution functions s functionID input false freshID execF =
        .err "execution queue is full, try again later") := by
  refine ⟨rfl, ?_, ?_⟩
  · intro hlen
    simp [scheduleExecution, hf, hlen]
  · intro hlen
    simp [scheduleExecution, hf, hlen]

/-- Witness for `async_submission`: an empty queue accepts, a queue of
100 items refuses. -/
theorem async_submission_witness :
    scheduleExecution fnsGreetOnly sEmpty "f1" [] false "r1" execFUnused =
      .ok { requestID := "r1", functionID := "f1", statusCode := 202,
            output := "", errorMessage := "", duration := 0 }
         { sEmpty with asyncQueue :=
            sEmpty.asyncQueue ++ [⟨"f1", "", [], false, "r1"⟩] } ∧
    scheduleExecution fnsGreetOnly sFullQueue "f1" [] false "r1" execFUnused =
      .err "execution queue is full, try again later" :=
  ⟨(async_submission fnsGreetOnly sEmpty "f1" [] "r1" execFUnused fnGreet rfl).2.1
      (by simp [sEmpty, asyncQueueCap]),
   (async_submission fnsGreetOnly sFullQueue "f1" [] "r1" execFUnused fnGreet rfl).2.2
      (by simp [sFullQueue, asyncQueueCap])⟩

/-- C7 counterexample: terminating VM "v1" succeeds once, but the
second invocation returns the error "VM not found" instead of
succeeding, so `terminate` is not idempotent in its result. -/
theorem terminate_twice_errors :
    (terminateVM sOneVM "v1").2 = none ∧
    (terminateVM (terminateVM sOneVM "v1").1 "v1").2 = some "VM not found" := by
  exact ⟨rfl, rfl⟩

/-- C7 amended: a successful termination removes the VM from the
in-memory map and the store; a second termination of the same id then
fails with "VM not found" but leaves the state unchanged. -/
theorem terminate_second_call_errors (s : VMMState) (id : String) :
    (s.vms id = true →
      (terminateVM s id).2 = none ∧ (terminateVM s id).1.vms id = false ∧
      (terminateVM s id).1.store id = false ∧ id ∈ (terminateVM s id).1.terminated) ∧
    (s.vms id = false →
      (terminateVM s id).1 = s ∧ (terminateVM s id).2 = some "VM not found") := by
  constructor
  · intro hv
    simp [terminateVM, hv]
  · intro hv
    simp [terminateVM, hv]

/-- Witness for `terminate_second_call_errors` on the two-call run. -/
theorem terminate_second_call_errors_witness :
    ((terminateVM sOneVM "v1").2 = none ∧
      (terminateVM sOneVM "v1").1.vms "v1" = false ∧
      (terminateVM sOneVM "v1").1.store "v1" = false ∧
      "v1" ∈ (terminateVM sOneVM "v1").1.terminated) ∧
    ((terminateVM (terminateVM sOneVM "v1").1 "v1").1 = (terminateVM sOneVM "v1").1 ∧
      (terminateVM (terminateVM sOneVM "v1").1 "v1").2 = some "VM not found") :=
  ⟨(terminate_second_call_errors sOneVM "v1").1 rfl,
   (terminate_second_call_errors (terminateVM sOneVM "v1").1 "v1").2 rfl⟩

/-- C8 counterexample: in an environment that sets PORT to 9999,
WARM_POOL_SIZE to 7 and FAAS_VM_KERNEL_PATH to /custom/kernel, the
server still listens on :8080, the warm pool size is still 5, and the
kernel used by createVM is not the one the environment helper would
return — the configuration is not taken from the environment. -/
theorem startup_env_ignored :
    envCustom "PORT" = "9999" ∧ serverAddr ≠ ":9999" ∧
    envCustom "WARM_POOL_SIZE" = "7" ∧ newVMManagerWarmPoolSize ≠ 7 ∧
    getDefaultKernelPath envCustom = "/custom/kernel" ∧
    createVMConfig.kernel ≠ getDefaultKernelPath envCustom := by
  decide

/-- C8 amended: the listen address, warm-pool size and createVM's
kernel/rootfs/memory/cpu are hardcoded constants; the FAAS_VM_*
helpers do read the environment but are not consulted by createVM. -/
theorem startup_config_hardcoded (env : Env)
    (hk : env "FAAS_VM_KERNEL_PATH" ≠ "") :
    serverAddr = ":8080" ∧
    newVMManagerWarmPoolSize = 5 ∧
    createVMConfig.memory = 128 ∧ createVMConfig.cpu = 1 ∧
    createVMConfig.kernel = "/home/bluequbit/Dev/faas/assets/hello-vmlinux.bin" ∧
    createVMConfig.rootfs = "/home/bluequbit/Dev/faas/assets/hello-rootfs.ext4" ∧
    getDefaultKernelPath env = env "FAAS_VM_KERNEL_PATH" := by
  refine ⟨rfl, rfl, rfl, rfl, rfl, rfl, ?_⟩
  simp [getDefaultKernelPath, hk]

/-- Witness for `startup_config_hardcoded` at `envCustom`. -/
theorem startup_config_hardcoded_witness :
    serverAddr = ":8080" ∧
    newVMManagerWarmPoolSize = 5 ∧
    createVMConfig.memory = 128 ∧ createVMConfig.cpu = 1 ∧
    createVMConfig.kernel = "/home/bluequbit/Dev/faas/assets/hello-vmlinux.bin" ∧
    createVMConfig.rootfs = "/home/bluequbit/Dev/faas/assets/hello-rootfs.ext4" ∧
    getDefaultKernelPath envCustom = envCustom "FAAS_VM_KERNEL_PATH" :=
  startup_config_hardcoded envCustom (by decide)

/-- C9: when the duplicate-name check passes, the directory and all
three file writes succeed, but persisting the row fails, the
registration returns the error and removes the function's storage
directory, leaving neither a row nor on-disk state behind. -/
theorem register_cleanup_on_save_failure (s : RegistryState) (name runtime : String)
    (memory timeout : Int) (code requirements config : String)
    (freshID : String) (now : Nat)
    (hname : s.functions.find? (fun f => f.name = name) = none) :
    (registerFunction s name runtime memory timeout code requirements config
        freshID now ⟨true, true, true, true, false⟩).1 =
      .error "failed to save function" ∧
    (registerFunction s name runtime memory timeout code requirements config
        freshID now ⟨true, true, true, true, false⟩).2.disk freshID = none ∧
    (registerFunction s name runtime memory timeout code requirements config
        freshID now ⟨true, true, true, true, false⟩).2.functions = s.functions := by
  refine ⟨?_, ?_, ?_⟩ <;> simp [registerFunction, hname, diskWrite]

/-- Witness for `register_cleanup_on_save_failure` on an empty
registry. -/
theorem register_cleanup_on_save_failure_witness :
    (registerFunction regEmpty "greet" "python3.9" 128 30 "code-text" "reqs-text"
        "cfg-text" "f1" 0 ⟨true, true, true, true, false⟩).1 =
      .error "failed to save function" ∧
    (registerFunction regEmpty "greet" "python3.9" 128 30 "code-text" "reqs-text"
        "cfg-text" "f1" 0 ⟨true, true, true, true, false⟩).2.disk "f1" = none ∧
    (registerFunction regEmpty "greet" "python3.9" 128 30 "code-text" "reqs-text"
        "cfg-text" "f1" 0 ⟨true, true, true, true, false⟩).2.functions =
      regEmpty.functions :=
  register_cleanup_on_save_failure regEmpty "greet" "python3.9" 128 30 "code-text"
    "reqs-text" "cfg-text" "f1" 0 rfl

/-- C10: ids in the active-execution map answer 102 (processing); any
persisted row — whatever its status, including "failed" and "timeout"
— is answered with status code 200, failure being visible only in the
error-message field. -/
theorem get_execution_result_codes (s : SchedulerState) (id : String) :
    (s.activeExecutions id = true →
      getExecutionResult s id =
        .ok { requestID := id, functionID := "", statusCode := 102,
              output := "", errorMessage := "", duration := 0 }) ∧
    (∀ e, s.activeExecutions id = false → s.executions id = some e →
      getExecutionResult s id =
        .ok { requestID := id, functionID := e.functionID, statusCode := 200,
              output := e.logs, errorMessage := e.error, duration := e.duration }) := by
  constructor
  · intro ha
    simp [getExecutionResult, ha]
  · intro e ha he
    simp [getExecutionResult, ha, he]

/-- Witness for `get_execution_result_codes`: an active id answers
102; a persisted row with status "failed" still answers 200. -/
theorem get_execution_result_codes_witness :
    getExecutionResult sLookup "act" =
      .ok { requestID := "act", functionID := "", statusCode := 102,
            output := "", errorMessage := "", duration := 0 } ∧
    getExecutionResult sLookup "e9" =
      .ok { requestID := "e9", functionID := exFailedRow.functionID, statusCode := 200,
            output := exFailedRow.logs, errorMessage := exFailedRow.error,
            duration := exFailedRow.duration } ∧
    exFailedRow.status = "failed" :=
  ⟨(get_execution_result_codes sLookup "act").1 rfl,
   (get_execution_result_codes sLookup "e9").2 exFailedRow rfl (by decide),
   rfl⟩

end Skyscale
